import Mathlib

/-!
Shallow embedding of the landos terrain ETL pipeline (backend/services/analytics)
with proofs checking the natural-language specification against the code.

Conventions of the embedding:
- Python floats are modelled as exact rationals (ℚ).
- Raised Python exceptions are modelled with `Except String` / an `Option String`
  component carrying the exception message.
- External effects (HTTP providers, the rasterio rasterizer, MongoDB lookups)
  are passed in as explicit parameters describing their outcome, so each ETL
  function is a pure function of its inputs and the stored terrain document.
- MongoDB `update_one` with `$set` is modelled as a functional update of the
  stored `Terrain` record; a dotted path such as `etl_layers.soil` updates one
  field and preserves siblings, while setting `etl_layers` replaces the whole
  sub-document, exactly as the driver behaves.
-/

namespace Landos

/-- A 2-D integer grid (list of rows), as produced by `array.astype(int).tolist()`. -/
abbrev Grid := List (List Int)

/-- Geographic bounds rectangle `{left, bottom, right, top}`. -/
structure Bounds where
  left : ℚ
  bottom : ℚ
  right : ℚ
  top : ℚ
deriving Repr, DecidableEq

/-- One entry of `etl_layers`: `{status, error?, note?}` (timestamps omitted:
no claim depends on `updated_at`). -/
structure LayerStatus where
  status : String
  error : Option String
  note : Option String
deriving Repr, DecidableEq

/-- The `etl_layers` mapping of a terrain document. -/
structure EtlLayers where
  dem : Option LayerStatus
  soil : Option LayerStatus
  land_cover : Option LayerStatus
deriving Repr, DecidableEq

/-- The `elevation_data` sub-document (fields used by the soil and land-cover ETLs). -/
structure ElevationData where
  heightmap : Grid
  bounds : Option Bounds
  transform : Option (List ℚ)
deriving Repr, DecidableEq

/-- The `soil_data` sub-document written by `fetch_soil_data`
(`map_units`/`units` attribute payloads are omitted: no claim inspects them). -/
structure SoilData where
  grid : Option Grid
  bounds : Option Bounds
  transform : Option (List ℚ)
  index_map : List (String × String)
deriving Repr, DecidableEq

/-- The `land_cover` sub-document written by `fetch_land_cover_data`. -/
structure LandCoverData where
  grid : Grid
  index_map : List (String × String)
  bounds : Option Bounds
  transform : Option (List ℚ)
deriving Repr, DecidableEq

/-- A terrain document (one per project). A missing sub-document is `none`. -/
structure Terrain where
  elevation_data : Option ElevationData
  soil_data : Option SoilData
  land_cover : Option LandCoverData
  etl_layers : EtlLayers
deriving Repr, DecidableEq

/-- The empty terrain document `{}` (what `find_one(...) or {}` yields when
no document exists yet). -/
def Terrain.empty : Terrain :=
  { elevation_data := none
    soil_data := none
    land_cover := none
    etl_layers := { dem := none, soil := none, land_cover := none } }

/-- Python `a or b` on two optionals whose payloads are truthy. -/
def pyOr {α : Type} (a b : Option α) : Option α :=
  match a with
  | some x => some x
  | none => b

/-- A fetched raster `{grid, bounds, transform}`, as returned by
`_fetch_land_cover_raster` or substituted by `_fallback_from_soil`. -/
structure Raster where
  grid : Grid
  bounds : Option Bounds
  transform : Option (List ℚ)
deriving Repr, DecidableEq

/-! ## land_cover.py: resampling, fallback, and `fetch_land_cover_data` -/

/-- Python 3 `round` (used as `int(round(x))` in `_resample_grid`): rounds to
the nearest integer, halves to the nearest even integer. All arguments passed
to it by `_resample_grid` are nonnegative. -/
def pyRound (q : ℚ) : ℤ :=
  if q - ⌊q⌋ < 1/2 then ⌊q⌋
  else if q - ⌊q⌋ > 1/2 then ⌊q⌋ + 1
  else if ⌊q⌋ % 2 = 0 then ⌊q⌋ else ⌊q⌋ + 1

/-- `_resample_grid(grid, target_rows, target_cols)` from `land_cover.py`
(lines 117-132): nearest-neighbour resampling by index mapping
`src = int(round((dst / max(dstSize - 1, 1)) * max(srcSize - 1, 0)))`.
Python indexing `grid[src_r][src_c]` is modelled with `List.getD`; for the
grids our theorems apply this to (nonempty, rectangular) the indices are
always in range, so the default is never consulted. -/
def resample_grid (grid : Grid) (target_rows target_cols : ℕ) : Grid :=
  if grid.isEmpty then grid
  else
    let src_rows := grid.length
    let src_cols := (grid.headD []).length
    if src_rows = target_rows ∧ src_cols = target_cols then grid
    else
      (List.range target_rows).map fun (r : ℕ) =>
        let src_r := (pyRound (((r : ℚ) / ((max (target_rows - 1) 1 : ℕ) : ℚ)) *
          ((max (src_rows - 1) 0 : ℕ) : ℚ))).toNat
        (List.range target_cols).map fun (c : ℕ) =>
          let src_c := (pyRound (((c : ℚ) / ((max (target_cols - 1) 1 : ℕ) : ℚ)) *
            ((max (src_cols - 1) 0 : ℕ) : ℚ))).toNat
          (grid.getD src_r []).getD src_c 0

/-- `_fallback_from_soil(terrain)` from `land_cover.py` (lines 135-144):
returns the stored soil grid (with its bounds/transform) as a substitute
raster, or `None` when there is no soil grid. Python `if not grid` is true
both for a missing grid and for an empty list. -/
def fallback_from_soil (terrain : Terrain) : Option Raster :=
  match terrain.soil_data with
  | none => none
  | some soil =>
    match soil.grid with
    | none => none
    | some g =>
      if g.isEmpty then none
      else some { grid := g, bounds := soil.bounds, transform := soil.transform }

/-- Lines 267-269 of `fetch_land_cover_data`: resample the grid to the DEM
shape when the DEM shape is known (`rows` and `cols` nonzero) and the shapes
differ; otherwise keep the grid unchanged. -/
def alignToDem (grid : Grid) (rows cols : ℕ) : Grid :=
  if ¬grid.isEmpty ∧ rows ≠ 0 ∧ cols ≠ 0 ∧
      (grid.length ≠ rows ∨ (grid.headD []).length ≠ cols)
  then resample_grid grid rows cols
  else grid

/-- The distinct stringified cell values of a grid, as in
`codes = {str(v) for row in grid for v in row if v is not None}`
(cells are ints after `astype(int)`, so none is `None`). -/
def gridCodes (grid : Grid) : List String :=
  (grid.map fun row => row.map fun v => toString v).flatten.dedup

/-- The environment flags read by `fetch_land_cover_data`:
`LAND_COVER_REMOTE_ONLY == "1"` and `LAND_COVER_FORCE_ERROR_ONCE == "1"`. -/
structure LcEnv where
  remote_only : Bool
  force_error_once : Bool
deriving Repr, DecidableEq

/-- Lines 267-304 of `fetch_land_cover_data`: the store path shared by a
successful fetch (`note = none`) and the soil fallback
(`note = some "fallback_soil"`). Aligns the grid to the DEM shape, builds
`index_map` from the land-cover key lookup (falling back to the stringified
code itself), takes `bounds`/`transform` from the DEM when available, and
writes the `land_cover` sub-document together with the ok status. -/
def storeLandCover (terrain : Terrain) (rows cols : ℕ) (raster : Raster)
    (note : Option String) (keyLookup : List (String × String)) :
    Option Terrain × Option String :=
  let grid := alignToDem raster.grid rows cols
  let codes := gridCodes grid
  let index_map := codes.map fun code => (code, (keyLookup.lookup code).getD code)
  let target_bounds := pyOr (terrain.elevation_data.bind (fun e => e.bounds)) raster.bounds
  let target_transform :=
    pyOr (terrain.elevation_data.bind (fun e => e.transform)) raster.transform
  let doc : LandCoverData :=
    { grid := grid, index_map := index_map,
      bounds := target_bounds, transform := target_transform }
  let etl : LayerStatus := { status := "ok", error := none, note := note }
  let t' := { terrain with
    land_cover := some doc
    etl_layers := { terrain.etl_layers with land_cover := some etl } }
  (some t', none)

/-- Lines 226-228 of `fetch_land_cover_data`: the DEM grid shape read off the
stored terrain document
(`heightmap = (terrain.get("elevation_data") or {}).get("heightmap") or []`,
`rows = len(heightmap)`, `cols = len(heightmap[0]) if rows else 0`). -/
def demShape (terrain : Terrain) : ℕ × ℕ :=
  let heightmap := match terrain.elevation_data with
    | some e => e.heightmap
    | none => []
  (heightmap.length, (heightmap.headD []).length)

/-- `fetch_land_cover_data(project)` from `land_cover.py` (lines 212-310),
for a project that passes the `project_id`/`geometry` check of lines 220-223.
Parameters model the externals: `env` the two environment flags,
`fetchOutcome` the result of `_fetch_land_cover_raster` (an exception or a
raster), `keyLookup` the `code -> name` map built from the
`land_cover_keys` collection, and `stored` the terrain document on file
(`find_one or {}`). Returns the terrain document after the run and the
re-raised exception, if any. The `FORCE_ERROR_ONCE` branch also pops the
environment variable; that mutation is outside this single-invocation model. -/
def fetch_land_cover_data (env : LcEnv) (fetchOutcome : Except String Raster)
    (keyLookup : List (String × String)) (stored : Option Terrain) :
    Option Terrain × Option String :=
  let terrain := stored.getD Terrain.empty
  let rows := (demShape terrain).1
  let cols := (demShape terrain).2
  let previous_status := terrain.etl_layers.land_cover.map fun s => s.status
  if env.force_error_once ∧ previous_status = none then
    let etl : LayerStatus := { status := "failed", error := some "forced", note := none }
    let t' := { terrain with
      etl_layers := { terrain.etl_layers with land_cover := some etl } }
    (some t', some "forced land cover failure")
  else
    match fetchOutcome with
    | .error exc =>
      let fallback_allowed := previous_status = some "failed" ∨ ¬env.remote_only
      let fallback := if fallback_allowed then fallback_from_soil terrain else none
      match fallback with
      | some fb => storeLandCover terrain rows cols fb (some "fallback_soil") keyLookup
      | none =>
        let etl : LayerStatus := { status := "failed", error := some exc, note := none }
        let t' := { terrain with
          etl_layers := { terrain.etl_layers with land_cover := some etl } }
        (some t', some exc)
    | .ok raster => storeLandCover terrain rows cols raster none keyLookup

/-! ## soil.py: the request loop and `fetch_soil_data` -/

/-- One parsed row of the soil provider response, after
`dict(zip(columns, row))`: the `mukey` column (already `str(...).strip()`-ed)
and the row's polygon. `poly = none` models a missing/empty `wkt` column or a
WKT parse failure — in all those cases the row is skipped (`continue`). The
polygon itself is opaque to this embedding (a token handed to the
rasterizer). The remaining attribute columns are omitted: no claim inspects
them. -/
structure SoilRow where
  mukey : String
  poly : Option String
deriving Repr, DecidableEq

/-- Line 84 of `soil.py` evaluates `await asyncio.sleep(1)`, but the module
imports of `soil.py` (lines 1-19) never import `asyncio`, so evaluating the
name `asyncio` raises `NameError` — modelled as an error outcome of the
backoff step. -/
def soilSleepBackoff : Except String Unit :=
  .error "NameError: name asyncio is not defined"

/-- The request loop of `fetch_soil_data` (`soil.py` lines 70-84):
`while attempts < 2`, try the provider call, `break` on success; on failure
`raise` when `attempts >= 2`, otherwise back off (`asyncio.sleep(1)`) and
retry. `provider n` is the outcome of the `(n+1)`-th HTTP POST. Returns the
rows together with the number of provider calls made, or the raised
exception together with the number of provider calls made. The loop is
written with structural fuel `fuel = 2 - attempts` (so `attempts < 2` is
exactly `fuel > 0`); the fall-through when the fuel runs out (which would
leave `rows` unbound in Python) is unreachable. -/
def soilFetchLoopAux {α : Type} (provider : ℕ → Except String α) :
    ℕ → ℕ → Except (String × ℕ) (α × ℕ)
  | 0, attempts => .error ("loop exited without rows", attempts)
  | fuel + 1, attempts =>
    match provider attempts with
    | .ok rows => .ok (rows, attempts + 1)
    | .error e =>
      if attempts + 1 ≥ 2 then .error (e, attempts + 1)
      else
        match soilSleepBackoff with
        | .error ne => .error (ne, attempts + 1)
        | .ok _ => soilFetchLoopAux provider fuel (attempts + 1)

/-- The request loop entered with `attempts = 0` (two iterations allowed). -/
def soilFetchLoop {α : Type} (provider : ℕ → Except String α) (attempts : ℕ) :
    Except (String × ℕ) (α × ℕ) :=
  soilFetchLoopAux provider (2 - attempts) attempts

/-- The row loop of `fetch_soil_data` (`soil.py` lines 103-118): builds
`mukey_to_id` (insertion-ordered, ids starting at 1 via
`setdefault(mukey, len(mukey_to_id) + 1)`) and the `shapes` list of
`(polygon, id)` pairs to burn; rows with an empty `mukey` or no polygon are
skipped. -/
def soilShapesFold (rows : List SoilRow) :
    List (String × ℕ) × List (String × ℕ) :=
  rows.foldl
    (fun acc row =>
      let (mukey_to_id, shapes) := acc
      if row.mukey = "" then acc
      else
        match row.poly with
        | none => acc
        | some poly =>
          match mukey_to_id.lookup row.mukey with
          | some idx => (mukey_to_id, shapes ++ [(poly, idx)])
          | none =>
            let idx := mukey_to_id.length + 1
            (mukey_to_id ++ [(row.mukey, idx)], shapes ++ [(poly, idx)]))
    ([], [])

/-- `fetch_soil_data(project)` from `soil.py` (lines 33-158), for a project
that passes the `project_id`/`geometry` check. Parameters model the
externals: `provider n` the outcome of the `(n+1)`-th SSURGO POST,
`rasterizer shapes rows cols transform` the outcome of
`rasterio.features.rasterize` on the DEM-shaped target, and `stored` the
terrain document on file. Returns the terrain document after the run and
the raised exception, if any; a raise before the final `update_one` leaves
the stored document untouched. -/
def fetch_soil_data (provider : ℕ → Except String (List SoilRow))
    (rasterizer : List (String × ℕ) → ℕ → ℕ → List ℚ → Except String Grid)
    (stored : Option Terrain) : Option Terrain × Option String :=
  match soilFetchLoop provider 0 with
  | .error (e, _) => (stored, some e)
  | .ok (mapped_rows, _) =>
    match stored with
    | none => (stored, some "DEM must be loaded before soil ETL")
    | some terrain =>
      match terrain.elevation_data with
      | none => (stored, some "DEM must be loaded before soil ETL")
      | some elev =>
        let heightmap := elev.heightmap
        let rows := heightmap.length
        let cols := (heightmap.headD []).length
        match elev.transform with
        | none =>
          (stored, some "DEM heightmap and transform are required for soil rasterization")
        | some transform =>
          if rows = 0 ∨ cols = 0 then
            (stored, some "DEM heightmap and transform are required for soil rasterization")
          else
            let (mukey_to_id, shapes) := soilShapesFold mapped_rows
            let id_to_mukey := mukey_to_id.map fun p => (toString p.2, p.1)
            let result : LayerStatus × Option Grid :=
              if shapes.isEmpty then
                ({ status := "failed", error := some "no soil polygons", note := none },
                  none)
              else
                match rasterizer shapes rows cols transform with
                | .ok arr =>
                  ({ status := "ok", error := none, note := none }, some arr)
                | .error exc =>
                  ({ status := "failed", error := some exc, note := none }, none)
            let soil_doc : SoilData :=
              { grid := result.2
                bounds := elev.bounds
                transform := some transform
                index_map := id_to_mukey }
            let t' := { terrain with
              soil_data := some soil_doc
              etl_layers := { terrain.etl_layers with soil := some result.1 } }
            (some t', none)

/-! ## terrain/usa/__init__.py `run_all` and trigger_etl.py lines 197-216 -/

/-- The external inputs of one USA `run_all` invocation: the soil provider
and rasterizer outcomes, the land-cover environment flags and fetch outcome,
and the land-cover key lookup. -/
structure UsaEnv where
  soilProvider : ℕ → Except String (List SoilRow)
  rasterizer : List (String × ℕ) → ℕ → ℕ → List ℚ → Except String Grid
  lcEnv : LcEnv
  lcFetch : Except String Raster
  keyLookup : List (String × String)

/-- `run_all(project)` from `terrain/usa/__init__.py` (lines 17-22): awaits
`soil.fetch_soil_data` then `land_cover.fetch_land_cover_data`, with no
exception handling — an exception raised by the soil ETL propagates and the
land-cover ETL is never invoked. The third component records whether the
land-cover ETL was invoked. -/
def run_all (env : UsaEnv) (stored : Option Terrain) :
    Option Terrain × Option String × Bool :=
  match fetch_soil_data env.soilProvider env.rasterizer stored with
  | (st, some e) => (st, some e, false)
  | (st, none) =>
    let r := fetch_land_cover_data env.lcEnv env.lcFetch env.keyLookup st
    (r.1, r.2, true)

/-- Lines 197-216 of `trigger_etl`: the country-ETL phase that runs after the
DEM was stored. On any exception from `run_country_etl` (here: USA
`run_all`), the handler overwrites the document's whole `etl_layers` mapping
with `{dem: ok, soil: failed, land_cover: failed}` (each failure carrying the
caught exception's text) and re-raises. -/
def trigger_etl_country_phase (env : UsaEnv) (stored : Option Terrain) :
    Option Terrain × Option String :=
  match run_all env stored with
  | (st, none, _) => (st, none)
  | (st, some e, _) =>
    let base := st.getD Terrain.empty
    let t' := { base with etl_layers :=
      { dem := some { status := "ok", error := none, note := none }
        soil := some { status := "failed", error := some e, note := none }
        land_cover := some { status := "failed", error := some e, note := none } } }
    (some t', some e)

/-! ## determine_region.py: `resolve_region` (lines 13-43) -/

/-- A reference-collection document as projected by the two lookups
(`{"code": 1, "name": 1}`); either field may be missing. -/
structure RegionDoc where
  code : Option String
  name : Option String
deriving Repr, DecidableEq

/-- The result dictionary built by `resolve_region`. -/
structure RegionResult where
  country : Option String
  country_name : Option String
  subdivision : Option String
  subdivision_name : Option String
deriving Repr, DecidableEq

/-- `resolve_region(geometry)` from `determine_region.py` (lines 13-43), for
a geometry that passes `validate_geometry`. `countryLookup` and
`subdivisionLookup` are the outcomes of the two `$geoIntersects` `find_one`
calls (`db.regions` then `db.subdivisions`): an exception or an optional
matching document. The two awaits run in sequence with no exception
handling, so an exception from either lookup propagates out of
`resolve_region`. -/
def resolve_region (countryLookup subdivisionLookup : Except String (Option RegionDoc)) :
    Except String RegionResult :=
  match countryLookup with
  | .error e => .error e
  | .ok country =>
    match subdivisionLookup with
    | .error e => .error e
    | .ok subdivision =>
      .ok { country := country.bind fun d => d.code
            country_name := country.bind fun d => d.name
            subdivision := subdivision.bind fun d => d.code
            subdivision_name := subdivision.bind fun d => d.name }

/-! ## Reference dataset loaders (api/__init__.py, land_cover.py) -/

/-- The observable state of one reference dataset: the target collection's
document count, whether the `datasets` and `refresh_jobs` metadata records
exist, and instrumentation counting dataset acquisitions (download/parse
steps) and insert operations performed. -/
structure LoaderState where
  collCount : ℕ
  datasetMeta : Bool
  refreshJob : Bool
  fetches : ℕ
  inserts : ℕ
deriving Repr, DecidableEq

/-- `_ensure_countries(db)` from `api/__init__.py` (lines 113-153): skip
entirely when `db.regions` already has documents; otherwise download and
extract the shapefile, build `docs`, bulk-insert tolerating individual
insert failures (`insertOk` tells which documents insert successfully), and
write the `datasets` and `refresh_jobs` records. -/
def ensure_countries {α : Type} (docs : List α) (insertOk : α → Bool)
    (s : LoaderState) : LoaderState :=
  if s.collCount > 0 then s
  else
    { collCount := s.collCount + (docs.filter insertOk).length
      datasetMeta := true
      refreshJob := true
      fetches := s.fetches + 1
      inserts := s.inserts + 1 }

/-- `load_land_cover_keys(db)` from `land_cover.py` (lines 80-103): skip when
`db.land_cover_keys` already has documents; otherwise download/parse the
legend, insert the rows when nonempty, and write the `datasets` and
`refresh_jobs` records. -/
def load_land_cover_keys {α : Type} (keys : List α) (s : LoaderState) : LoaderState :=
  if s.collCount > 0 then s
  else
    let afterInsert :=
      if keys.isEmpty then s.collCount
      else s.collCount + keys.length
    { collCount := afterInsert
      datasetMeta := true
      refreshJob := true
      fetches := s.fetches + 1
      inserts := if keys.isEmpty then s.inserts else s.inserts + 1 }

/-- The per-source body of the `_ensure_subdivisions` loop (`api/__init__.py`
lines 161-204): download and extract the source, build `docs`, insert them
when nonempty (tolerating individual insert failures via `insertOk`), and
write that source's metadata records. -/
def subdivisionsStep {α : Type} (insertOk : α → Bool) (st : LoaderState)
    (docs : List α) : LoaderState :=
  let st := { st with fetches := st.fetches + 1 }
  if docs.isEmpty then { st with datasetMeta := true, refreshJob := true }
  else
    { st with
      collCount := st.collCount + (docs.filter insertOk).length
      inserts := st.inserts + 1
      datasetMeta := true
      refreshJob := true }

/-- `_ensure_subdivisions(db)` from `api/__init__.py` (lines 156-204): skip
when `db.subdivisions` already has documents; otherwise run
`subdivisionsStep` for each configured source. -/
def ensure_subdivisions {α : Type} (sources : List (List α)) (insertOk : α → Bool)
    (s : LoaderState) : LoaderState :=
  if s.collCount > 0 then s
  else sources.foldl (subdivisionsStep insertOk) s

/-! ## trigger_etl.py: `_square_bbox` (lines 43-51) -/

/-- `_square_bbox(geom_shape, buffer_ratio=0.1, min_buffer_deg=0.002)` from
`trigger_etl.py`: returns a square bbox `(minx, miny, maxx, maxy)` enclosing
the geometry bounds with buffer. Arguments: the raw geometry bounds and the
two buffer parameters (`br` = buffer_ratio, `mb` = min_buffer_deg), passed
positionally. -/
def squareBbox (minx miny maxx maxy br mb : ℚ) : ℚ × ℚ × ℚ × ℚ :=
  let cx := (minx + maxx) / 2
  let cy := (miny + maxy) / 2
  let span := max (maxx - minx) (maxy - miny)
  let buffered_span := max (max (span * (1 + br)) (span + mb)) mb
  let half := buffered_span / 2
  (cx - half, cy - half, cx + half, cy + half)

/-! ## platform/utils.py: `validate_area_bounds` (lines 99-109) -/

/-- `validate_area_bounds(payload, min_ha=100, max_ha=1000)` from
`backend/platform/utils.py`. The payload's geometry is `geometry : Option γ`
(absent field = `none`); `computeArea` stands for
`analytics_services.compute_area_hectares`, whose geodesic area computation is
an external collaborator of this check. Raises `ValueError` when the geometry
is missing or the area falls outside `[min_ha, max_ha]`. -/
def validate_area_bounds {γ : Type} (geometry : Option γ) (computeArea : γ → ℚ)
    (min_ha max_ha : ℚ) : Except String ℚ :=
  match geometry with
  | none => .error "geometry is required for area validation"
  | some g =>
    let area := computeArea g
    if area < min_ha ∨ area > max_ha then .error "geometry area out of allowed range"
    else .ok area

end Landos

/-! ## Helper lemmas about grid alignment -/

/-- When the grid already has the target shape, `alignToDem` keeps it
unchanged (lines 267-269 skip the resample, and `_resample_grid` itself
returns the grid unchanged on matching shapes). -/
theorem alignToDem_of_shape_eq (grid : Landos.Grid) (rows cols : ℕ)
    (h1 : grid.length = rows) (h2 : (grid.headD []).length = cols) :
    Landos.alignToDem grid rows cols = grid := by
  have hcond : ¬(¬grid.isEmpty ∧ rows ≠ 0 ∧ cols ≠ 0 ∧
      (grid.length ≠ rows ∨ (grid.headD []).length ≠ cols)) :=
    fun h => h.2.2.2.elim (fun hh => hh h1) fun hh => hh h2
  unfold Landos.alignToDem
  rw [if_neg hcond]

/-- For a nonempty rectangular grid and a known DEM shape, `alignToDem`
produces a grid of exactly the DEM's shape. -/
theorem alignToDem_shape (grid : Landos.Grid) (rows cols : ℕ)
    (hg : grid ≠ []) (hr : rows ≠ 0) (hc : cols ≠ 0)
    (hrect : ∀ row ∈ grid, row.length = (grid.headD []).length) :
    (Landos.alignToDem grid rows cols).length = rows ∧
      ∀ row ∈ Landos.alignToDem grid rows cols, row.length = cols := by
  by_cases hshape : grid.length = rows ∧ (grid.headD []).length = cols
  · rw [alignToDem_of_shape_eq grid rows cols hshape.1 hshape.2]
    refine ⟨hshape.1, fun row hrow => ?_⟩
    rw [hrect row hrow, hshape.2]
  · have hcond : ¬grid.isEmpty ∧ rows ≠ 0 ∧ cols ≠ 0 ∧
        (grid.length ≠ rows ∨ (grid.headD []).length ≠ cols) := by
      refine ⟨by simpa using hg, hr, hc, ?_⟩
      by_cases hl : grid.length = rows
      · exact Or.inr fun hTc => hshape ⟨hl, hTc⟩
      · exact Or.inl hl
    unfold Landos.alignToDem
    rw [if_pos hcond]
    unfold Landos.resample_grid
    rw [if_neg (by simpa using hg)]
    rw [if_neg (by
      intro hEq
      exact hcond.2.2.2.elim (fun h => h hEq.1) fun h => h hEq.2)]
    constructor
    · simp
    · intro row hrow
      simp only [List.mem_map, List.mem_range] at hrow
      obtain ⟨r, _, hrfl⟩ := hrow
      simp [← hrfl]

/-- C5: for every geometry with raw bounds of width `w` and height `h`, the DEM
bounding box computed by `_square_bbox` with the default parameters
(`buffer_ratio = 0.1`, `min_buffer_deg = 0.002`) is exactly square with side
`max (max (span * 1.1) (span + 0.002)) 0.002` where `span = max w h`, is
centered on the center of the geometry's bounds, and contains those bounds. -/
theorem C5_square_bbox (minx miny maxx maxy : ℚ)
    (hx : minx ≤ maxx) (hy : miny ≤ maxy) :
    (Landos.squareBbox minx miny maxx maxy (1/10) (1/500)).2.2.1 -
        (Landos.squareBbox minx miny maxx maxy (1/10) (1/500)).1 =
      max (max (max (maxx - minx) (maxy - miny) * (1 + 1/10))
        (max (maxx - minx) (maxy - miny) + 1/500)) (1/500) ∧
    (Landos.squareBbox minx miny maxx maxy (1/10) (1/500)).2.2.2 -
        (Landos.squareBbox minx miny maxx maxy (1/10) (1/500)).2.1 =
      max (max (max (maxx - minx) (maxy - miny) * (1 + 1/10))
        (max (maxx - minx) (maxy - miny) + 1/500)) (1/500) ∧
    (Landos.squareBbox minx miny maxx maxy (1/10) (1/500)).1 +
        (Landos.squareBbox minx miny maxx maxy (1/10) (1/500)).2.2.1 = minx + maxx ∧
    (Landos.squareBbox minx miny maxx maxy (1/10) (1/500)).2.1 +
        (Landos.squareBbox minx miny maxx maxy (1/10) (1/500)).2.2.2 = miny + maxy ∧
    (Landos.squareBbox minx miny maxx maxy (1/10) (1/500)).1 ≤ minx ∧
    (Landos.squareBbox minx miny maxx maxy (1/10) (1/500)).2.1 ≤ miny ∧
    maxx ≤ (Landos.squareBbox minx miny maxx maxy (1/10) (1/500)).2.2.1 ∧
    maxy ≤ (Landos.squareBbox minx miny maxx maxy (1/10) (1/500)).2.2.2 := by
  have hspanx : maxx - minx ≤ max (maxx - minx) (maxy - miny) := le_max_left _ _
  have hspany : maxy - miny ≤ max (maxx - minx) (maxy - miny) := le_max_right _ _
  have hside : max (maxx - minx) (maxy - miny) + 1/500 ≤
      max (max (max (maxx - minx) (maxy - miny) * (1 + 1/10))
        (max (maxx - minx) (maxy - miny) + 1/500)) (1/500) :=
    le_trans (le_max_right _ _) (le_max_left _ _)
  simp only [Landos.squareBbox]
  set s := max (maxx - minx) (maxy - miny) with hs
  set B := max (max (s * (1 + 1/10)) (s + 1/500)) (1/500) with hB
  refine ⟨by ring, by ring, by ring, by ring, by linarith, by linarith, by linarith,
    by linarith⟩

/-- Witness for C5: the 2-degree × 1-degree rectangle `[0,2] × [0,1]` yields the
square box of side `2.2 = max (max 2.2 2.002) 0.002` centered on `(1, 1/2)`
(which is also the rectangle's centroid) and containing the bounds. -/
theorem C5_square_bbox_witness :
    (0 : ℚ) ≤ 2 ∧ (0 : ℚ) ≤ 1 ∧
    (Landos.squareBbox 0 0 2 1 (1/10) (1/500)).2.2.1 -
      (Landos.squareBbox 0 0 2 1 (1/10) (1/500)).1 = 11/5 ∧
    (Landos.squareBbox 0 0 2 1 (1/10) (1/500)).2.2.2 -
      (Landos.squareBbox 0 0 2 1 (1/10) (1/500)).2.1 = 11/5 ∧
    (Landos.squareBbox 0 0 2 1 (1/10) (1/500)).1 +
      (Landos.squareBbox 0 0 2 1 (1/10) (1/500)).2.2.1 = 0 + 2 := by
  have h := C5_square_bbox 0 0 2 1 (by norm_num) (by norm_num)
  refine ⟨by norm_num, by norm_num, ?_, ?_, h.2.2.1⟩
  · rw [h.1]; norm_num
  · rw [h.2.1]; norm_num

/-- C10: with the default bounds `min_ha = 100`, `max_ha = 1000`,
`validate_area_bounds` returns the computed area exactly when
`100 ≤ area ≤ 1000`, and raises `ValueError` when the area is strictly below
100 or strictly above 1000, or when the geometry field is missing. -/
theorem C10_validate_area_bounds {γ : Type} (g : γ) (computeArea : γ → ℚ) :
    (Landos.validate_area_bounds (none : Option γ) computeArea 100 1000 =
      .error "geometry is required for area validation") ∧
    (100 ≤ computeArea g → computeArea g ≤ 1000 →
      Landos.validate_area_bounds (some g) computeArea 100 1000 = .ok (computeArea g)) ∧
    (computeArea g < 100 ∨ computeArea g > 1000 →
      Landos.validate_area_bounds (some g) computeArea 100 1000 =
        .error "geometry area out of allowed range") := by
  refine ⟨rfl, ?_, ?_⟩
  · intro h1 h2
    have hcond : ¬(computeArea g < 100 ∨ computeArea g > 1000) := by
      push_neg
      exact ⟨h1, h2⟩
    simp only [Landos.validate_area_bounds, if_neg hcond]
  · intro h
    simp only [Landos.validate_area_bounds, if_pos h]

/-- Witness for C10: a geometry of area 500 ha is accepted, one of 50 ha and
one of 1200 ha are rejected, and a missing geometry is rejected. -/
theorem C10_validate_area_bounds_witness :
    (Landos.validate_area_bounds (none : Option Unit) (fun _ => (500 : ℚ)) 100 1000 =
      .error "geometry is required for area validation") ∧
    (Landos.validate_area_bounds (some ()) (fun _ => (500 : ℚ)) 100 1000 = .ok 500) ∧
    (Landos.validate_area_bounds (some ()) (fun _ => (50 : ℚ)) 100 1000 =
      .error "geometry area out of allowed range") ∧
    (Landos.validate_area_bounds (some ()) (fun _ => (1200 : ℚ)) 100 1000 =
      .error "geometry area out of allowed range") :=
  ⟨(C10_validate_area_bounds () (fun _ => (500 : ℚ))).1,
   (C10_validate_area_bounds () (fun _ => (500 : ℚ))).2.1 (by norm_num) (by norm_num),
   (C10_validate_area_bounds () (fun _ => (50 : ℚ))).2.2 (by norm_num),
   (C10_validate_area_bounds () (fun _ => (1200 : ℚ))).2.2 (by norm_num)⟩

/-- C9: unlike the soil ETL, the land-cover ETL has no DEM prerequisite
check: on a project with `project_id` and geometry but no stored elevation
data, `fetch_land_cover_data` does not raise a missing-prerequisite error; it
proceeds, skips resampling (rows = cols = 0), and stores the `land_cover`
layer with status `ok` using the fetched raster's own bounds and transform
instead of the DEM's. -/
theorem C9_land_cover_no_dem_prereq (env : Landos.LcEnv) (raster : Landos.Raster)
    (keyLookup : List (String × String)) (t : Landos.Terrain)
    (hforce : env.force_error_once = false)
    (hdem : t.elevation_data = none) :
    Landos.fetch_land_cover_data env (.ok raster) keyLookup (some t) =
      (some { t with
        land_cover := some
          { grid := raster.grid
            index_map := (Landos.gridCodes raster.grid).map
              fun code => (code, (keyLookup.lookup code).getD code)
            bounds := raster.bounds
            transform := raster.transform }
        etl_layers := { t.etl_layers with
          land_cover := some { status := "ok", error := none, note := none } } },
       none) := by
  have halign : Landos.alignToDem raster.grid (Landos.demShape t).1 (Landos.demShape t).2 =
      raster.grid := by
    unfold Landos.alignToDem
    rw [if_neg]
    intro h
    have : (Landos.demShape t).1 = 0 := by simp [Landos.demShape, hdem]
    exact h.2.1 this
  simp only [Landos.fetch_land_cover_data, Landos.storeLandCover, Option.getD,
    hforce, Bool.false_eq_true, false_and, if_false, halign]
  simp [Landos.pyOr, hdem]

/-- Witness for C9: a concrete run with no elevation data, a 1×1 fetched
raster of code 3, and an empty key table stores the raster as-is with
status `ok`. -/
theorem C9_land_cover_no_dem_prereq_witness :
    Landos.fetch_land_cover_data { remote_only := false, force_error_once := false }
      (.ok { grid := [[3]], bounds := some { left := 0, bottom := 0, right := 1, top := 1 },
             transform := some [1, 0, 0, 0, -1, 1] })
      [] (some Landos.Terrain.empty) =
      (some { Landos.Terrain.empty with
        land_cover := some
          { grid := [[3]]
            index_map := (Landos.gridCodes [[3]]).map
              fun code => (code, (([] : List (String × String)).lookup code).getD code)
            bounds := some { left := 0, bottom := 0, right := 1, top := 1 }
            transform := some [1, 0, 0, 0, -1, 1] }
        etl_layers := { Landos.Terrain.empty.etl_layers with
          land_cover := some { status := "ok", error := none, note := none } } },
       none) :=
  C9_land_cover_no_dem_prereq { remote_only := false, force_error_once := false }
    { grid := [[3]], bounds := some { left := 0, bottom := 0, right := 1, top := 1 },
      transform := some [1, 0, 0, 0, -1, 1] }
    [] Landos.Terrain.empty rfl rfl

/-- C4: for every land-cover ETL run on a project whose DEM grid
(`rows × cols`, nonempty and rectangular) is present, the stored
`land_cover` grid has exactly the DEM's `rows` and `cols`: a fetched grid of
a different shape is resampled by the nearest-neighbour index mapping of
`_resample_grid`, and a fetched grid that already matches is stored
unchanged (resampling to the same shape is the identity). -/
theorem C4_land_cover_dem_shape (env : Landos.LcEnv) (raster : Landos.Raster)
    (keyLookup : List (String × String)) (t : Landos.Terrain)
    (elev : Landos.ElevationData)
    (hforce : env.force_error_once = false)
    (helev : t.elevation_data = some elev)
    (hhm : elev.heightmap ≠ [])
    (hcols : (elev.heightmap.headD []).length ≠ 0)
    (hg : raster.grid ≠ [])
    (hrect : ∀ row ∈ raster.grid, row.length = (raster.grid.headD []).length) :
    ∃ doc : Landos.LandCoverData,
      Landos.fetch_land_cover_data env (.ok raster) keyLookup (some t) =
        (some { t with
          land_cover := some doc
          etl_layers := { t.etl_layers with
            land_cover := some { status := "ok", error := none, note := none } } },
         none) ∧
      doc.grid.length = elev.heightmap.length ∧
      (∀ row ∈ doc.grid, row.length = (elev.heightmap.headD []).length) ∧
      (raster.grid.length = elev.heightmap.length ∧
          (raster.grid.headD []).length = (elev.heightmap.headD []).length →
        doc.grid = raster.grid) := by
  have hshape : Landos.demShape t = (elev.heightmap.length, (elev.heightmap.headD []).length) := by
    simp [Landos.demShape, helev]
  refine ⟨{ grid := Landos.alignToDem raster.grid (Landos.demShape t).1 (Landos.demShape t).2
            index_map := (Landos.gridCodes
              (Landos.alignToDem raster.grid (Landos.demShape t).1 (Landos.demShape t).2)).map
              fun code => (code, (keyLookup.lookup code).getD code)
            bounds := Landos.pyOr (t.elevation_data.bind fun e => e.bounds) raster.bounds
            transform :=
              Landos.pyOr (t.elevation_data.bind fun e => e.transform) raster.transform },
    ?_, ?_, ?_, ?_⟩
  · simp only [Landos.fetch_land_cover_data, Landos.storeLandCover, Option.getD,
      hforce, Bool.false_eq_true, false_and, if_false]
  · have := alignToDem_shape raster.grid (Landos.demShape t).1 (Landos.demShape t).2
      hg (by rw [hshape]; exact fun h => hhm (List.length_eq_zero.mp h))
      (by rw [hshape]; exact hcols) hrect
    simpa [hshape] using this.1
  · have := alignToDem_shape raster.grid (Landos.demShape t).1 (Landos.demShape t).2
      hg (by rw [hshape]; exact fun h => hhm (List.length_eq_zero.mp h))
      (by rw [hshape]; exact hcols) hrect
    simpa [hshape] using this.2
  · intro hmatch
    have := alignToDem_of_shape_eq raster.grid (Landos.demShape t).1 (Landos.demShape t).2
      (by rw [hshape]; exact hmatch.1) (by rw [hshape]; exact hmatch.2)
    simpa using this

/-- Witness for C4: with a 2×2 DEM heightmap and a 1×1 fetched raster, the
stored grid is resampled to 2×2; the hypotheses hold by computation. -/
theorem C4_land_cover_dem_shape_witness :
    ∃ doc : Landos.LandCoverData,
      Landos.fetch_land_cover_data { remote_only := false, force_error_once := false }
        (.ok { grid := [[9]], bounds := none, transform := none }) []
        (some { elevation_data := some
                  { heightmap := [[1, 2], [3, 4]], bounds := none,
                    transform := some [1, 0, 0, 0, -1, 2] }
                soil_data := none
                land_cover := none
                etl_layers := { dem := none, soil := none, land_cover := none } }) =
        (some { elevation_data := some
                  { heightmap := [[1, 2], [3, 4]], bounds := none,
                    transform := some [1, 0, 0, 0, -1, 2] }
                soil_data := none
                land_cover := some doc
                etl_layers := { dem := none
                                soil := none
                                land_cover := some { status := "ok", error := none, note := none } } },
         none) ∧
      doc.grid.length = 2 ∧
      (∀ row ∈ doc.grid, row.length = 2) := by
  obtain ⟨doc, heq, hlen, hrows, _⟩ :=
    C4_land_cover_dem_shape { remote_only := false, force_error_once := false }
      { grid := [[9]], bounds := none, transform := none } []
      { elevation_data := some
          { heightmap := [[1, 2], [3, 4]], bounds := none,
            transform := some [1, 0, 0, 0, -1, 2] }
        soil_data := none
        land_cover := none
        etl_layers := { dem := none, soil := none, land_cover := none } }
      { heightmap := [[1, 2], [3, 4]], bounds := none, transform := some [1, 0, 0, 0, -1, 2] }
      rfl rfl (by decide) (by decide) (by decide) (by decide)
  exact ⟨doc, heq, hlen, hrows⟩

/-- C3 counterexample: the claim says that when fallback is disallowed by
configuration (`LAND_COVER_REMOTE_ONLY=1`) the ETL persists status `failed`
and re-raises. But with a previously `failed` land-cover status and a stored
soil grid, the code allows the fallback anyway
(`fallback_allowed = previous_status == "failed" or allow_fallback_first`):
the run below raises nothing and stores status `ok` with the fallback note,
refuting the claim at this input. -/
theorem C3_counterexample :
    Landos.fetch_land_cover_data { remote_only := true, force_error_once := false }
      (.error "fetch boom") []
      (some { elevation_data := none
              soil_data := some { grid := some [[7]], bounds := none, transform := none,
                                  index_map := [] }
              land_cover := none
              etl_layers := { dem := none
                              soil := none
                              land_cover := some { status := "failed", error := some "boom",
                                                   note := none } } }) =
      (some { elevation_data := none
              soil_data := some { grid := some [[7]], bounds := none, transform := none,
                                  index_map := [] }
              land_cover := some { grid := [[7]], index_map := [("7", "7")], bounds := none,
                                   transform := none }
              etl_layers := { dem := none
                              soil := none
                              land_cover := some { status := "ok", error := none,
                                                   note := some "fallback_soil" } } },
       none) := by decide

/-- C3 amended: on a raster fetch failure, the fallback is taken exactly when
it is allowed (configuration does not disallow it, or — amending the claim —
the previous land-cover status is already `failed`) and a nonempty soil grid
exists; then status `ok` is stored with the `fallback_soil` note and the soil
grid (resampled to the DEM shape when the shapes differ). Otherwise status
`failed` with the error text is persisted (leaving the `land_cover` grid
field untouched) and the failure is re-raised to the caller. -/
theorem C3_land_cover_fallback_amended (env : Landos.LcEnv) (exc : String)
    (keyLookup : List (String × String)) (t : Landos.Terrain)
    (hforce : env.force_error_once = false) :
    (∀ fb : Landos.Raster,
      (t.etl_layers.land_cover.map (fun s => s.status) = some "failed" ∨
        env.remote_only = false) →
      Landos.fallback_from_soil t = some fb →
      ∃ doc : Landos.LandCoverData,
        Landos.fetch_land_cover_data env (.error exc) keyLookup (some t) =
          (some { t with
            land_cover := some doc
            etl_layers := { t.etl_layers with
              land_cover := some { status := "ok", error := none,
                                   note := some "fallback_soil" } } },
           none) ∧
        doc.grid = Landos.alignToDem fb.grid (Landos.demShape t).1 (Landos.demShape t).2) ∧
    (¬((t.etl_layers.land_cover.map (fun s => s.status) = some "failed" ∨
          env.remote_only = false) ∧
        (Landos.fallback_from_soil t).isSome) →
      Landos.fetch_land_cover_data env (.error exc) keyLookup (some t) =
        (some { t with
          etl_layers := { t.etl_layers with
            land_cover := some { status := "failed", error := some exc, note := none } } },
         some exc)) := by
  constructor
  · intro fb hallowed hfb
    refine ⟨{ grid := Landos.alignToDem fb.grid (Landos.demShape t).1 (Landos.demShape t).2
              index_map := (Landos.gridCodes
                (Landos.alignToDem fb.grid (Landos.demShape t).1 (Landos.demShape t).2)).map
                fun code => (code, (keyLookup.lookup code).getD code)
              bounds := Landos.pyOr (t.elevation_data.bind fun e => e.bounds) fb.bounds
              transform :=
                Landos.pyOr (t.elevation_data.bind fun e => e.transform) fb.transform },
      ?_, rfl⟩
    have hallowed' : t.etl_layers.land_cover.map (fun s => s.status) = some "failed" ∨
        ¬env.remote_only = true := by
      rcases hallowed with h | h
      · exact Or.inl h
      · exact Or.inr (by simp [h])
    simp only [Landos.fetch_land_cover_data, Landos.storeLandCover, Option.getD,
      hforce, Bool.false_eq_true, false_and, if_false, if_pos hallowed', hfb]
  · intro hno
    by_cases hallowed' : t.etl_layers.land_cover.map (fun s => s.status) = some "failed" ∨
        ¬env.remote_only = true
    · have hfbnone : Landos.fallback_from_soil t = none := by
        cases hfb : Landos.fallback_from_soil t with
        | none => rfl
        | some fb =>
          exact absurd ⟨by
            rcases hallowed' with h | h
            · exact Or.inl h
            · exact Or.inr (by simpa using h), by simp [hfb]⟩ hno
      simp only [Landos.fetch_land_cover_data, Option.getD, hforce, Bool.false_eq_true,
        false_and, if_false, if_pos hallowed', hfbnone]
    · simp only [Landos.fetch_land_cover_data, Option.getD, hforce, Bool.false_eq_true,
        false_and, if_false, if_neg hallowed']

/-- Witness for C3 amended: a run with fallback allowed by configuration and a
stored 1×1 soil grid (no DEM) falls back with status `ok` and the note; a run
with fallback disallowed and no previous failure persists `failed` and
re-raises. -/
theorem C3_land_cover_fallback_amended_witness :
    (∃ doc : Landos.LandCoverData,
      Landos.fetch_land_cover_data { remote_only := false, force_error_once := false }
        (.error "boom") []
        (some { elevation_data := none
                soil_data := some { grid := some [[7]], bounds := none, transform := none,
                                    index_map := [] }
                land_cover := none
                etl_layers := { dem := none, soil := none, land_cover := none } }) =
        (some { elevation_data := none
                soil_data := some { grid := some [[7]], bounds := none, transform := none,
                                    index_map := [] }
                land_cover := some doc
                etl_layers := { dem := none
                                soil := none
                                land_cover := some { status := "ok", error := none,
                                                     note := some "fallback_soil" } } },
         none) ∧
      doc.grid = Landos.alignToDem [[7]]
        (Landos.demShape { elevation_data := none
                           soil_data := some { grid := some [[7]], bounds := none,
                                               transform := none, index_map := [] }
                           land_cover := none
                           etl_layers := { dem := none, soil := none,
                                           land_cover := none } }).1
        (Landos.demShape { elevation_data := none
                           soil_data := some { grid := some [[7]], bounds := none,
                                               transform := none, index_map := [] }
                           land_cover := none
                           etl_layers := { dem := none, soil := none,
                                           land_cover := none } }).2) ∧
    Landos.fetch_land_cover_data { remote_only := true, force_error_once := false }
      (.error "boom") [] (some Landos.Terrain.empty) =
      (some { Landos.Terrain.empty with
        etl_layers := { Landos.Terrain.empty.etl_layers with
          land_cover := some { status := "failed", error := some "boom", note := none } } },
       some "boom") :=
  ⟨(C3_land_cover_fallback_amended { remote_only := false, force_error_once := false }
      "boom" []
      { elevation_data := none
        soil_data := some { grid := some [[7]], bounds := none, transform := none,
                            index_map := [] }
        land_cover := none
        etl_layers := { dem := none, soil := none, land_cover := none } } rfl).1
    { grid := [[7]], bounds := none, transform := none }
    (Or.inr rfl) (by decide),
   (C3_land_cover_fallback_amended { remote_only := true, force_error_once := false }
      "boom" [] Landos.Terrain.empty rfl).2 (by decide)⟩

/-- If the first provider call succeeds, the request loop returns its rows
after exactly one provider call. -/
theorem soilFetchLoop_first_ok {α : Type} (provider : ℕ → Except String α) (v : α)
    (h : provider 0 = .ok v) : Landos.soilFetchLoop provider 0 = .ok (v, 1) := by
  unfold Landos.soilFetchLoop Landos.soilFetchLoopAux
  simp [h]

/-- If the first provider call fails, the retry path evaluates
`asyncio.sleep`, which raises `NameError` (no `import asyncio` in `soil.py`):
the loop terminates with the `NameError` after exactly one provider call,
never reaching a second call. -/
theorem soilFetchLoop_first_err {α : Type} (provider : ℕ → Except String α) (e : String)
    (h : provider 0 = .error e) :
    Landos.soilFetchLoop provider 0 =
      .error ("NameError: name asyncio is not defined", 1) := by
  unfold Landos.soilFetchLoop Landos.soilFetchLoopAux
  simp [h, Landos.soilSleepBackoff]

/-- C6 counterexample: the claim says a failing rasterization leaves the
previously stored soil grid untouched. But `fetch_soil_data` always writes
the whole `soil_data` sub-document (`$set {"soil_data": soil_doc, ...}`) with
`grid = None` on a rasterization exception: below, a terrain document whose
soil grid was `[[5, 5], [5, 5]]` ends the failing run with
`soil_data.grid = None` — the stored grid is cleared, refuting the claim at
this input (the `failed` status with the exception message is recorded as
claimed). -/
theorem C6_counterexample :
    Landos.fetch_soil_data (fun _ => .ok [{ mukey := "m1", poly := some "P" }])
      (fun _ _ _ _ => .error "raster boom")
      (some { elevation_data := some { heightmap := [[1, 2], [3, 4]], bounds := none,
                                       transform := some [1, 0, 0, 0, -1, 2] }
              soil_data := some { grid := some [[5, 5], [5, 5]], bounds := none,
                                  transform := none, index_map := [] }
              land_cover := none
              etl_layers := { dem := some { status := "ok", error := none, note := none }
                              soil := some { status := "ok", error := none, note := none }
                              land_cover := none } }) =
      (some { elevation_data := some { heightmap := [[1, 2], [3, 4]], bounds := none,
                                       transform := some [1, 0, 0, 0, -1, 2] }
              soil_data := some { grid := none, bounds := none,
                                  transform := some [1, 0, 0, 0, -1, 2],
                                  index_map := [("1", "m1")] }
              land_cover := none
              etl_layers := { dem := some { status := "ok", error := none, note := none }
                              soil := some { status := "failed", error := some "raster boom",
                                             note := none }
                              land_cover := none } },
       none) := by decide

/-- C6 amended: when the rasterization step raises, the recorded
`etl_layers.soil` becomes `{status: failed, error: <exception message>}` as
claimed, but the `soil_data` sub-document is rewritten with `grid = None` —
the previously stored soil grid is cleared, not preserved. The sibling
fields (`elevation_data`, `land_cover`) and the sibling ETL statuses are
untouched (the update uses the dotted path `etl_layers.soil`). -/
theorem C6_soil_raster_failure_amended
    (provider : ℕ → Except String (List Landos.SoilRow))
    (rasterizer : List (String × ℕ) → ℕ → ℕ → List ℚ → Except String Landos.Grid)
    (t : Landos.Terrain) (elev : Landos.ElevationData) (tr : List ℚ) (exc : String)
    (rowsData : List Landos.SoilRow)
    (helev : t.elevation_data = some elev)
    (hhm : elev.heightmap ≠ [])
    (hcols : (elev.heightmap.headD []).length ≠ 0)
    (htr : elev.transform = some tr)
    (hprov : provider 0 = .ok rowsData)
    (hshapes : (Landos.soilShapesFold rowsData).2 ≠ [])
    (hrast : rasterizer (Landos.soilShapesFold rowsData).2 elev.heightmap.length
        (elev.heightmap.headD []).length tr = .error exc) :
    Landos.fetch_soil_data provider rasterizer (some t) =
      (some { t with
        soil_data := some { grid := none, bounds := elev.bounds, transform := some tr,
                            index_map := (Landos.soilShapesFold rowsData).1.map
                              fun p => (toString p.2, p.1) }
        etl_layers := { t.etl_layers with
          soil := some { status := "failed", error := some exc, note := none } } },
       none) := by
  have hloop := soilFetchLoop_first_ok provider rowsData hprov
  have hdim : ¬(elev.heightmap.length = 0 ∨ (elev.heightmap.headD []).length = 0) := by
    push_neg
    exact ⟨fun h => hhm (List.length_eq_zero.mp h), hcols⟩
  have hempty : (Landos.soilShapesFold rowsData).2.isEmpty = false := by
    simpa using hshapes
  simp only [Landos.fetch_soil_data, hloop, helev, htr, if_neg hdim, hempty,
    Bool.false_eq_true, if_false, hrast]

/-- Witness for C6 amended: a concrete run with a 2×2 DEM, one provider row
and a failing rasterizer records the failed status and clears the grid. -/
theorem C6_soil_raster_failure_amended_witness :
    Landos.fetch_soil_data (fun _ => .ok [{ mukey := "m1", poly := some "P" }])
      (fun _ _ _ _ => .error "raster boom")
      (some { elevation_data := some { heightmap := [[1, 2], [3, 4]], bounds := none,
                                       transform := some [1, 0, 0, 0, -1, 2] }
              soil_data := none
              land_cover := none
              etl_layers := { dem := none, soil := none, land_cover := none } }) =
      (some { elevation_data := some { heightmap := [[1, 2], [3, 4]], bounds := none,
                                       transform := some [1, 0, 0, 0, -1, 2] }
              soil_data := some { grid := none, bounds := none,
                                  transform := some [1, 0, 0, 0, -1, 2],
                                  index_map := [("1", "m1")] }
              land_cover := none
              etl_layers := { dem := none
                              soil := some { status := "failed", error := some "raster boom",
                                             note := none }
                              land_cover := none } },
       none) :=
  C6_soil_raster_failure_amended (fun _ => .ok [{ mukey := "m1", poly := some "P" }])
    (fun _ _ _ _ => .error "raster boom")
    { elevation_data := some { heightmap := [[1, 2], [3, 4]], bounds := none,
                               transform := some [1, 0, 0, 0, -1, 2] }
      soil_data := none
      land_cover := none
      etl_layers := { dem := none, soil := none, land_cover := none } }
    { heightmap := [[1, 2], [3, 4]], bounds := none, transform := some [1, 0, 0, 0, -1, 2] }
    [1, 0, 0, 0, -1, 2] "raster boom" [{ mukey := "m1", poly := some "P" }]
    rfl (by decide) (by decide) rfl rfl (by decide) rfl

/-- C2: the spec's retry law says a soil fetch whose first provider request
fails and whose second would succeed makes exactly 2 provider calls and ends
with `etl_layers.soil.status = ok`. The retry loop of `soil.py` clearly
intends this (and the repository's unit test asserts it), but `soil.py`
never imports `asyncio`, so the backoff line `await asyncio.sleep(1)` raises
`NameError`: the run makes exactly 1 provider call, raises, and never
records an `ok` status — the code contradicts its own test. -/
theorem C2_soil_retry_broken (provider : ℕ → Except String (List Landos.SoilRow))
    (rasterizer : List (String × ℕ) → ℕ → ℕ → List ℚ → Except String Landos.Grid)
    (stored : Option Landos.Terrain) (e : String) (rowsOk : List Landos.SoilRow)
    (h0 : provider 0 = .error e) (h1 : provider 1 = .ok rowsOk) :
    Landos.soilFetchLoop provider 0 =
      .error ("NameError: name asyncio is not defined", 1) ∧
    Landos.fetch_soil_data provider rasterizer stored =
      (stored, some "NameError: name asyncio is not defined") := by
  have hloop := soilFetchLoop_first_err provider e h0
  exact ⟨hloop, by simp only [Landos.fetch_soil_data, hloop]⟩

/-- Witness for C2: a provider failing on the first call and succeeding on
the second nevertheless ends in the raised `NameError` after one call. -/
theorem C2_soil_retry_broken_witness :
    Landos.soilFetchLoop
      (fun n => if n = 0 then .error "boom" else .ok ([] : List Landos.SoilRow)) 0 =
      .error ("NameError: name asyncio is not defined", 1) ∧
    Landos.fetch_soil_data
      (fun n => if n = 0 then .error "boom" else .ok ([] : List Landos.SoilRow))
      (fun _ _ _ _ => .ok [[1]]) (some Landos.Terrain.empty) =
      (some Landos.Terrain.empty, some "NameError: name asyncio is not defined") :=
  C2_soil_retry_broken
    (fun n => if n = 0 then .error "boom" else .ok ([] : List Landos.SoilRow))
    (fun _ _ _ _ => .ok [[1]]) (some Landos.Terrain.empty) "boom" [] rfl rfl

/-- C1 counterexample: on a project with a stored DEM, (i) a failure raised
by the soil ETL during `run_all` does prevent the land-cover ETL from
running (`run_all` has no exception handling), and (ii) a land-cover failure
re-raised to `trigger_etl` makes its handler overwrite the whole
`etl_layers` mapping, recording `soil: failed` even though the soil run
succeeded (its grid is on the document). Scenario (i): the soil provider
fails, so `run_all` never invokes the land-cover ETL. Scenario (ii): soil
succeeds, the land-cover fetch fails with fallback disallowed, and the final
document holds a stored soil grid next to `etl_layers.soil.status = failed`.
Both refute the claim. -/
theorem C1_counterexample :
    (Landos.run_all
      { soilProvider := fun _ => .error "soil boom"
        rasterizer := fun _ _ _ _ => .ok [[1]]
        lcEnv := { remote_only := false, force_error_once := false }
        lcFetch := .ok { grid := [[9]], bounds := none, transform := none }
        keyLookup := [] }
      (some { elevation_data := some { heightmap := [[1, 2], [3, 4]], bounds := none,
                                       transform := some [1, 0, 0, 0, -1, 2] }
              soil_data := none
              land_cover := none
              etl_layers := { dem := some { status := "ok", error := none, note := none }
                              soil := none
                              land_cover := none } })).2.2 = false ∧
    ((Landos.fetch_soil_data (fun _ => .ok [{ mukey := "m1", poly := some "P" }])
        (fun _ _ _ _ => .ok [[1, 1], [1, 1]])
        (some { elevation_data := some { heightmap := [[1, 2], [3, 4]], bounds := none,
                                         transform := some [1, 0, 0, 0, -1, 2] }
                soil_data := none
                land_cover := none
                etl_layers := { dem := some { status := "ok", error := none, note := none }
                                soil := none
                                land_cover := none } })).1.bind
      fun t => t.etl_layers.soil.map fun s => s.status) = some "ok" ∧
    ((Landos.trigger_etl_country_phase
        { soilProvider := fun _ => .ok [{ mukey := "m1", poly := some "P" }]
          rasterizer := fun _ _ _ _ => .ok [[1, 1], [1, 1]]
          lcEnv := { remote_only := true, force_error_once := false }
          lcFetch := .error "lc boom"
          keyLookup := [] }
        (some { elevation_data := some { heightmap := [[1, 2], [3, 4]], bounds := none,
                                         transform := some [1, 0, 0, 0, -1, 2] }
                soil_data := none
                land_cover := none
                etl_layers := { dem := some { status := "ok", error := none, note := none }
                                soil := none
                                land_cover := none } })).1.bind
      fun t => t.etl_layers.soil.map fun s => s.status) = some "failed" := by decide

/-- C1 amended: the soil ETL's contained failures (no-polygons, rasterization
errors) complete without raising, so the land-cover ETL still runs and the
statuses stay per-layer; but a failure *raised* by the soil ETL aborts
`run_all` before the land-cover ETL is invoked and propagates unchanged, and
any failure re-raised out of `run_all` makes the `trigger_etl` handler
overwrite the whole `etl_layers` mapping with
`{dem: ok, soil: failed, land_cover: failed}` (each carrying the caught
error text) before re-raising — clobbering a successful soil status. -/
theorem C1_run_all_amended (env : Landos.UsaEnv) (stored : Option Landos.Terrain) :
    ((Landos.fetch_soil_data env.soilProvider env.rasterizer stored).2 = none →
      (Landos.run_all env stored).2.2 = true) ∧
    (∀ e, (Landos.fetch_soil_data env.soilProvider env.rasterizer stored).2 = some e →
      (Landos.run_all env stored).2.2 = false ∧
      (Landos.run_all env stored).2.1 = some e) ∧
    (∀ e st ran, Landos.run_all env stored = (st, some e, ran) →
      Landos.trigger_etl_country_phase env stored =
        (some { st.getD Landos.Terrain.empty with
          etl_layers :=
            { dem := some { status := "ok", error := none, note := none }
              soil := some { status := "failed", error := some e, note := none }
              land_cover := some { status := "failed", error := some e, note := none } } },
         some e)) := by
  refine ⟨?_, ?_, ?_⟩
  · intro hnone
    unfold Landos.run_all
    rcases hsoil : Landos.fetch_soil_data env.soilProvider env.rasterizer stored with ⟨st, r⟩
    rw [hsoil] at hnone
    simp only at hnone
    subst hnone
    simp
  · intro e hsome
    unfold Landos.run_all
    rcases hsoil : Landos.fetch_soil_data env.soilProvider env.rasterizer stored with ⟨st, r⟩
    rw [hsoil] at hsome
    simp only at hsome
    subst hsome
    simp
  · intro e st ran hrun
    unfold Landos.trigger_etl_country_phase
    rw [hrun]

/-- Witness for C1 amended: with a concrete environment whose soil provider
fails, the soil ETL raises the `NameError`, so `run_all` skips land cover
and the handler records both layers failed. -/
theorem C1_run_all_amended_witness :
    (Landos.run_all
      { soilProvider := fun _ => .error "soil boom"
        rasterizer := fun _ _ _ _ => .ok [[1]]
        lcEnv := { remote_only := false, force_error_once := false }
        lcFetch := .ok { grid := [[9]], bounds := none, transform := none }
        keyLookup := [] } (some Landos.Terrain.empty)).2.2 = false ∧
    Landos.trigger_etl_country_phase
      { soilProvider := fun _ => .error "soil boom"
        rasterizer := fun _ _ _ _ => .ok [[1]]
        lcEnv := { remote_only := false, force_error_once := false }
        lcFetch := .ok { grid := [[9]], bounds := none, transform := none }
        keyLookup := [] } (some Landos.Terrain.empty) =
      (some { Landos.Terrain.empty with
        etl_layers :=
          { dem := some { status := "ok", error := none, note := none }
            soil := some { status := "failed",
                           error := some "NameError: name asyncio is not defined",
                           note := none }
            land_cover := some { status := "failed",
                                 error := some "NameError: name asyncio is not defined",
                                 note := none } } },
       some "NameError: name asyncio is not defined") :=
  ⟨((C1_run_all_amended
      { soilProvider := fun _ => .error "soil boom"
        rasterizer := fun _ _ _ _ => .ok [[1]]
        lcEnv := { remote_only := false, force_error_once := false }
        lcFetch := .ok { grid := [[9]], bounds := none, transform := none }
        keyLookup := [] } (some Landos.Terrain.empty)).2.1
      "NameError: name asyncio is not defined" (by decide)).1,
   (C1_run_all_amended
      { soilProvider := fun _ => .error "soil boom"
        rasterizer := fun _ _ _ _ => .ok [[1]]
        lcEnv := { remote_only := false, force_error_once := false }
        lcFetch := .ok { grid := [[9]], bounds := none, transform := none }
        keyLookup := [] } (some Landos.Terrain.empty)).2.2
      "NameError: name asyncio is not defined" (some Landos.Terrain.empty) false (by decide)⟩

/-- C7 counterexample: the claim says the two spatial lookups are
independent, so an exception in one still yields a result carrying the
other. But `resolve_region` awaits the country lookup and the subdivision
lookup sequentially with no exception handling: with a failing country
lookup and a succeeding subdivision lookup, the whole resolution raises and
no result containing the subdivision is produced. -/
theorem C7_counterexample :
    Landos.resolve_region (.error "country lookup boom")
      (.ok (some { code := some "06", name := some "California" })) =
      .error "country lookup boom" := rfl

/-- C7 amended: the two lookups run sequentially and dependently — an
exception raised by either one aborts `resolve_region` entirely (the
exception propagates to the caller; `trigger_etl` catches it and proceeds
with an empty region). Only when both lookups complete without raising is a
result produced, carrying whichever of country/subdivision matched. -/
theorem C7_resolve_region_amended (c s : Option Landos.RegionDoc) (e : String)
    (l : Except String (Option Landos.RegionDoc)) :
    Landos.resolve_region (.ok c) (.ok s) =
      .ok { country := c.bind fun d => d.code
            country_name := c.bind fun d => d.name
            subdivision := s.bind fun d => d.code
            subdivision_name := s.bind fun d => d.name } ∧
    Landos.resolve_region (.error e) l = .error e ∧
    Landos.resolve_region (.ok c) (.error e) = .error e :=
  ⟨rfl, rfl, rfl⟩

/-- The subdivisions loop only adds documents: its final count is the initial
count plus, per source, the successfully inserted documents. -/
theorem subdivisions_foldl_count {α : Type} (sources : List (List α)) (insertOk : α → Bool)
    (s : Landos.LoaderState) :
    (sources.foldl (Landos.subdivisionsStep insertOk) s).collCount =
      s.collCount + (sources.map fun docs => (docs.filter insertOk).length).sum := by
  induction sources generalizing s with
  | nil => simp
  | cons d rest ih =>
    simp only [List.foldl_cons, List.map_cons, List.sum_cons, ih]
    have hstep : (Landos.subdivisionsStep insertOk s d).collCount =
        s.collCount + (d.filter insertOk).length := by
      unfold Landos.subdivisionsStep
      by_cases hd : d.isEmpty
      · have : d = [] := by simpa using hd
        subst this
        simp
      · rw [if_neg (by simpa using hd)]
    omega

/-- The document count of `db.regions` after `_ensure_countries`. -/
theorem ensure_countries_collCount {α : Type} (docs : List α) (insertOk : α → Bool)
    (s : Landos.LoaderState) :
    (Landos.ensure_countries docs insertOk s).collCount =
      if s.collCount > 0 then s.collCount else (docs.filter insertOk).length := by
  unfold Landos.ensure_countries
  by_cases h : s.collCount > 0
  · rw [if_pos h, if_pos h]
  · rw [if_neg h, if_neg h]
    simp only
    omega

/-- The document count of `db.land_cover_keys` after `load_land_cover_keys`. -/
theorem load_land_cover_keys_collCount {α : Type} (keys : List α)
    (s : Landos.LoaderState) :
    (Landos.load_land_cover_keys keys s).collCount =
      if s.collCount > 0 then s.collCount else keys.length := by
  unfold Landos.load_land_cover_keys
  by_cases h : s.collCount > 0
  · rw [if_pos h, if_pos h]
  · rw [if_neg h, if_neg h]
    by_cases hk : keys.isEmpty
    · have : keys = [] := by simpa using hk
      subst this
      simp only [if_pos rfl]
      simp
      omega
    · rw [if_neg hk]
      simp only
      omega

/-- The document count of `db.subdivisions` after `_ensure_subdivisions`. -/
theorem ensure_subdivisions_collCount {α : Type} (sources : List (List α))
    (insertOk : α → Bool) (s : Landos.LoaderState) :
    (Landos.ensure_subdivisions sources insertOk s).collCount =
      if s.collCount > 0 then s.collCount
      else (sources.map fun docs => (docs.filter insertOk).length).sum := by
  unfold Landos.ensure_subdivisions
  by_cases h : s.collCount > 0
  · rw [if_pos h, if_pos h]
  · rw [if_neg h, if_neg h, subdivisions_foldl_count]
    omega

/-- C8: every reference dataset loader (countries, subdivisions,
land_cover_keys) skips entirely — no insert, no download, state unchanged —
when its target collection already holds at least one document, and invoking
a loader twice leaves the same document count as invoking it once. -/
theorem C8_loaders_idempotent {α β γ : Type} (docsC : List α) (okC : α → Bool)
    (keys : List β) (sources : List (List γ)) (okS : γ → Bool)
    (s1 s2 s3 : Landos.LoaderState) :
    (0 < s1.collCount → Landos.ensure_countries docsC okC s1 = s1) ∧
    (0 < s2.collCount → Landos.load_land_cover_keys keys s2 = s2) ∧
    (0 < s3.collCount → Landos.ensure_subdivisions sources okS s3 = s3) ∧
    (Landos.ensure_countries docsC okC (Landos.ensure_countries docsC okC s1)).collCount =
      (Landos.ensure_countries docsC okC s1).collCount ∧
    (Landos.load_land_cover_keys keys (Landos.load_land_cover_keys keys s2)).collCount =
      (Landos.load_land_cover_keys keys s2).collCount ∧
    (Landos.ensure_subdivisions sources okS
        (Landos.ensure_subdivisions sources okS s3)).collCount =
      (Landos.ensure_subdivisions sources okS s3).collCount := by
  refine ⟨?_, ?_, ?_, ?_, ?_, ?_⟩
  · intro h
    unfold Landos.ensure_countries
    rw [if_pos h]
  · intro h
    unfold Landos.load_land_cover_keys
    rw [if_pos h]
  · intro h
    unfold Landos.ensure_subdivisions
    rw [if_pos h]
  · rw [ensure_countries_collCount, ensure_countries_collCount]
    split_ifs <;> omega
  · rw [load_land_cover_keys_collCount, load_land_cover_keys_collCount]
    split_ifs <;> omega
  · rw [ensure_subdivisions_collCount, ensure_subdivisions_collCount]
    split_ifs <;> omega

/-- Witness for C8: with collections already holding 5 documents, all three
loaders leave the state untouched, and concrete double invocations keep the
same counts. -/
theorem C8_loaders_idempotent_witness :
    (Landos.ensure_countries [0, 1] (fun _ => true)
      { collCount := 5, datasetMeta := true, refreshJob := true, fetches := 1, inserts := 1 } =
      { collCount := 5, datasetMeta := true, refreshJob := true, fetches := 1, inserts := 1 }) ∧
    (Landos.load_land_cover_keys [0, 1]
      { collCount := 5, datasetMeta := true, refreshJob := true, fetches := 1, inserts := 1 } =
      { collCount := 5, datasetMeta := true, refreshJob := true, fetches := 1, inserts := 1 }) ∧
    (Landos.ensure_subdivisions [[0, 1]] (fun _ => true)
      { collCount := 5, datasetMeta := true, refreshJob := true, fetches := 1, inserts := 1 } =
      { collCount := 5, datasetMeta := true, refreshJob := true, fetches := 1, inserts := 1 }) ∧
    (Landos.ensure_countries [0, 1] (fun _ => true)
      (Landos.ensure_countries [0, 1] (fun _ => true)
        { collCount := 0, datasetMeta := false, refreshJob := false, fetches := 0,
          inserts := 0 })).collCount =
      (Landos.ensure_countries [0, 1] (fun _ => true)
        { collCount := 0, datasetMeta := false, refreshJob := false, fetches := 0,
          inserts := 0 }).collCount := by
  have h := C8_loaders_idempotent [0, 1] (fun _ => true) [0, 1] [[0, 1]] (fun _ => true)
    { collCount := 5, datasetMeta := true, refreshJob := true, fetches := 1, inserts := 1 }
    { collCount := 5, datasetMeta := true, refreshJob := true, fetches := 1, inserts := 1 }
    { collCount := 5, datasetMeta := true, refreshJob := true, fetches := 1, inserts := 1 }
  have h0 := C8_loaders_idempotent [0, 1] (fun _ => true) [0, 1] [[0, 1]] (fun _ => true)
    { collCount := 0, datasetMeta := false, refreshJob := false, fetches := 0, inserts := 0 }
    { collCount := 0, datasetMeta := false, refreshJob := false, fetches := 0, inserts := 0 }
    { collCount := 0, datasetMeta := false, refreshJob := false, fetches := 0, inserts := 0 }
  exact ⟨h.1 (by norm_num), h.2.1 (by norm_num), h.2.2.1 (by norm_num), h0.2.2.2.1⟩
